import Mathlib

/-!
Verification of the visora-backend render-job orchestration core.

Shallow embedding of the Python sources:
  - `src/tasks/render_task.py` (job-file mutators and the Celery task),
  - `src/utils/job_store.py` (the `Job` class),
  - `src/services/queue.py` and `src/api/render_routes.py` (enqueue path),
  - `src/tasks.py` (the RQ worker `process_video_job` retry loop),
  - `src/engines/postprocess.py` and `src/services/storage.py` (S3 upload helpers).

JSON job files are modelled as association lists over leaf JSON values
(the verified operations treat stored values opaquely, so nested
objects and arrays are not needed); external effects (HTTP calls,
ffmpeg, S3, the clock) are oracles supplied through an environment
record, and Python exceptions are `Except` results.
-/

/-- Leaf JSON value.  The orchestration code only ever inspects string
and boolean fields; other values are carried around opaquely. -/
inductive JVal where
  | str  : String → JVal
  | num  : Int → JVal
  | bool : Bool → JVal
  | null : JVal
deriving DecidableEq, Repr

/-- A JSON object, as an association list with Python-dict semantics:
lookups see the first binding of a key, and setting an existing key
updates it in place. -/
abbrev Dict := List (String × JVal)

/-- `d[k] = v` on a Python dict: replace the first binding of `k`,
or append a fresh binding when `k` is absent. -/
def dictSet : Dict → String → JVal → Dict
  | [], k, v => [(k, v)]
  | p :: d, k, v => if p.1 = k then (k, v) :: d else p :: dictSet d k v

/-- `d.get(k)` on a Python dict. -/
def dictGet? : Dict → String → Option JVal
  | [], _ => none
  | p :: d, k => if p.1 = k then some p.2 else dictGet? d k

/-- `d.update(e)` on a Python dict: fold the entries of `e` into `d`. -/
def dictUpdate (d e : Dict) : Dict :=
  e.foldl (fun acc kv => dictSet acc kv.1 kv.2) d

/-- `d.get(k)` when the caller expects a string value. -/
def dictGetStr (d : Dict) (k : String) : Option String :=
  match dictGet? d k with
  | some (JVal.str s) => some s
  | _ => none

theorem dictGet?_dictSet_self (d : Dict) (k : String) (v : JVal) :
    dictGet? (dictSet d k v) k = some v := by
  induction d with
  | nil => simp [dictSet, dictGet?]
  | cons p d ih =>
    by_cases h : p.1 = k
    · simp [dictSet, dictGet?, h]
    · simp [dictSet, dictGet?, h, ih]

theorem dictGet?_dictSet_ne (d : Dict) (k k2 : String) (v : JVal) (h : k ≠ k2) :
    dictGet? (dictSet d k v) k2 = dictGet? d k2 := by
  induction d with
  | nil => simp [dictSet, dictGet?, h]
  | cons p d ih =>
    by_cases hp : p.1 = k
    · simp [dictSet, dictGet?, hp, h]
    · simp only [dictSet, if_neg hp]
      by_cases hp2 : p.1 = k2
      · simp [dictGet?, hp2]
      · simp [dictGet?, hp2, ih]

/-- A raw job JSON file (`jobs/<job_id>.json`) as read and written by
`src/tasks/render_task.py` and `src/utils/job_store.py`.  Every field
except `id` may be absent from the file. -/
structure StoredJob where
  id : String
  script : Option String := none
  script_text : Option String := none
  preset : Option String := none
  avatar : Option String := none
  face_video : Option String := none
  status : Option String := none
  meta : Option Dict := none
  result : Option Dict := none
  created_at : Option String := none
  completed_at : Option String := none
  error : Option String := none
  render_settings : Option Dict := none
deriving DecidableEq, Repr

/-- The jobs directory, as a map from job id to the parsed job file
(`none` = file missing or unreadable). -/
abbrev Store := String → Option StoredJob

/-- `read_job_file` (render_task.py): `none` models the
`FileNotFoundError` raise. -/
def read_job_file (s : Store) (job_id : String) : Option StoredJob :=
  s job_id

/-- `write_job_file` (render_task.py). -/
def write_job_file (s : Store) (job_id : String) (data : StoredJob) : Store :=
  fun k => if k = job_id then some data else s k

/-- `update_job_status` (render_task.py lines 65-76): read the job file
(falling back to a bare `{"id": job_id}` record when the read fails),
overwrite `status`, stamp `meta.last_update_at`, merge `extra` into
`meta`, and write the file back.  `now` stands for
`datetime.utcnow().isoformat()`. -/
def update_job_status (s : Store) (job_id status : String) (extra : Option Dict)
    (now : String) : Store :=
  let job :=
    match read_job_file s job_id with
    | some j => j
    | none => { id := job_id }
  let job := { job with status := some status }
  let meta0 := job.meta.getD []
  let meta1 := dictSet meta0 "last_update_at" (JVal.str now)
  let meta2 :=
    match extra with
    | some e => dictUpdate meta1 e
    | none => meta1
  write_job_file s job_id { job with meta := some meta2 }

/-- `set_job_result` (render_task.py lines 78-87): set `result`, force
`status = "completed"`, stamp `completed_at`; nothing else (in
particular `error`) is touched. -/
def set_job_result (s : Store) (job_id : String) (result : Dict) (now : String) : Store :=
  let job :=
    match read_job_file s job_id with
    | some j => j
    | none => { id := job_id }
  write_job_file s job_id
    { job with result := some result, status := some "completed", completed_at := some now }

/-- `set_job_failed` (render_task.py lines 89-98): force
`status = "failed"`, set `error`, stamp `completed_at`; nothing else
(in particular `result`) is touched. -/
def set_job_failed (s : Store) (job_id error : String) (now : String) : Store :=
  let job :=
    match read_job_file s job_id with
    | some j => j
    | none => { id := job_id }
  write_job_file s job_id
    { job with status := some "failed", error := some error, completed_at := some now }

/-- Status of the record stored for a job, if any. -/
def recStatus (o : Option StoredJob) : Option String :=
  o.bind StoredJob.status

/-- Result of the record stored for a job, if any. -/
def recResult (o : Option StoredJob) : Option Dict :=
  o.bind StoredJob.result

/-- Error of the record stored for a job, if any. -/
def recError (o : Option StoredJob) : Option String :=
  o.bind StoredJob.error

example :
    recStatus ((update_job_status (fun _ => none) "j1" "tts" none "t0") "j1") =
      some "tts" := by decide

/-! ## `src/utils/job_store.py` : the `Job` class -/

namespace JobStore

/-- Python `x or {}` on an optional dict argument (`None` and the empty
dict are falsy). -/
def pyOrD (o : Option Dict) : Dict :=
  match o with
  | some d => if d = [] then [] else d
  | none => []

/-- Python `x or dflt` on an optional string (`None` and `""` are falsy). -/
def pyOrStr (o : Option String) (dflt : String) : String :=
  match o with
  | some x => if x = "" then dflt else x
  | none => dflt

theorem pyOrD_some (d : Dict) : pyOrD (some d) = d := by
  unfold pyOrD
  split <;> simp_all

/-- An in-memory `Job` object, after `Job.__init__` has normalised the
constructor arguments. -/
structure Job where
  id : String
  script_text : String
  preset : String
  avatar : Option String
  status : String
  meta : Dict
  result : Dict
  created_at : String
  completed_at : Option String
  error : Option String
  render_settings : Dict
deriving DecidableEq, Repr

/-- The serialised form written to `jobs/<id>.json`: `Job.save` dumps
`to_dict()`, so every key is present, with the types `to_dict` gives
them. -/
structure JFile where
  id : String
  script_text : String
  preset : String
  avatar : Option String
  status : String
  meta : Dict
  result : Dict
  created_at : String
  completed_at : Option String
  error : Option String
  render_settings : Dict
deriving DecidableEq, Repr

/-- `Job.__init__` (job_store.py lines 16-38): `meta`, `result` and
`render_settings` default to `{}` via `x or {}`; `created_at` defaults
to `datetime.utcnow().isoformat()` (the `now` argument) via
`created_at or ...`; the remaining arguments are stored as given. -/
def Job.init (id script_text preset : String) (avatar : Option String)
    (status : String) (meta result : Option Dict)
    (created_at completed_at : Option String) (error : Option String)
    (render_settings : Option Dict) (now : String) : Job :=
  { id := id
    script_text := script_text
    preset := preset
    avatar := avatar
    status := status
    meta := pyOrD meta
    result := pyOrD result
    created_at := pyOrStr created_at now
    completed_at := completed_at
    error := error
    render_settings := pyOrD render_settings }

/-- `Job.to_dict` (job_store.py lines 44-57). -/
def Job.to_dict (j : Job) : JFile :=
  { id := j.id
    script_text := j.script_text
    preset := j.preset
    avatar := j.avatar
    status := j.status
    meta := j.meta
    result := j.result
    created_at := j.created_at
    completed_at := j.completed_at
    error := j.error
    render_settings := j.render_settings }

/-- `Job.save` (job_store.py lines 59-64): `json.dump(self.to_dict(), f)`.
The value modelled is the file content written. -/
def Job.save (j : Job) : JFile :=
  j.to_dict

/-- `Job.get` (job_store.py lines 74-97) applied to a file produced by
`Job.save` (so every key is present and `data.get` returns the stored
value): re-runs the constructor on the parsed fields. -/
def Job.get (data : JFile) (now : String) : Job :=
  Job.init data.id data.script_text data.preset data.avatar data.status
    (some data.meta) (some data.result) (some data.created_at)
    data.completed_at data.error (some data.render_settings) now

/-- `Job.create` (job_store.py lines 66-72): fresh uuid `jid`, construct
with status defaulting to `"created"` (then reassigned to `"created"`),
and save. -/
def Job.create (jid script_text preset : String) (avatar : Option String)
    (render_settings : Option Dict) (now : String) : Job :=
  Job.init jid script_text preset avatar "created" none none none none none
    (some (pyOrD render_settings)) now

end JobStore

/-! ## `src/services/queue.py` and `src/api/render_routes.py` -/

/-- Modelled from the spec: `src/api/render_routes.py` imports
`from models import Job`, an async ORM class that is not in the source
tree.  Per spec §4.1 the Job Record Store is durable key-value
persistence of Job entities with `get(id) -> Job|NotFound`, so
`Job.get` is modelled as lookup by id in a store and `job.save()` as
writing the record back under its id.  Only the fields `start_render`
touches are modelled. -/
structure OrmJob where
  id : String
  status : String
  meta : Option Dict
deriving DecidableEq, Repr

/-- The ORM backing store for `models.Job`. -/
abbrev OrmStore := String → Option OrmJob

/-- `enqueue_render_job` (services/queue.py lines 3-9): unconditionally
`celery_app.send_task("tasks.render_task.render_job_task", args=[job_id],
queue="renderers", ...)`.  The broker queue is modelled as the list of
job ids sent to it; note that no job status is read or checked here. -/
def enqueue_render_job (q : List String) (job_id : String) : List String :=
  q ++ [job_id]

/-- A FastAPI `HTTPException`: 404 or 409 with its detail. -/
inductive HttpErr where
  | notFound
  | conflict (detail : String)
deriving DecidableEq, Repr

/-- The JSON body returned by a successful `start_render`. -/
structure StartResp where
  ok : Bool
  job_id : String
  status : String
deriving DecidableEq, Repr

/-- `start_render` (api/render_routes.py lines 11-33): 404 when the job
is unknown; 409 when its status is one of
`started, parsing, rendering, completed`; otherwise set
`status = "queued"`, stamp the `manual_started*` meta keys, save, and
enqueue. -/
def start_render (s : OrmStore) (q : List String) (job_id now ip : String) :
    Except HttpErr (OrmStore × List String × StartResp) :=
  match s job_id with
  | none => .error .notFound
  | some job =>
    if job.status ∈ ["started", "parsing", "rendering", "completed"] then
      .error (.conflict ("Job already " ++ job.status))
    else
      let job := { job with
        status := "queued"
        meta := some (dictSet (dictSet (dictSet (job.meta.getD [])
          "manual_started" (JVal.bool true))
          "manual_started_at" (JVal.str now))
          "manual_started_ip" (JVal.str ip)) }
      let s2 : OrmStore := fun k => if k = job_id then some job else s k
      let q2 := enqueue_render_job q job.id
      .ok (s2, q2, { ok := true, job_id := job.id, status := job.status })

/-- Queue contents after a `start_render` call (projection). -/
def startRenderQueue (r : Except HttpErr (OrmStore × List String × StartResp)) :
    Option (List String) :=
  match r with
  | .ok (_, q2, _) => some q2
  | .error _ => none

/-- Stored status of a job after a `start_render` call (projection). -/
def startRenderStatus (r : Except HttpErr (OrmStore × List String × StartResp))
    (job_id : String) : Option String :=
  match r with
  | .ok (s2, _, _) => (s2 job_id).map OrmJob.status
  | .error _ => none

example :
    JobStore.Job.get (JobStore.Job.save (JobStore.Job.create "u1" "hi" "short" none none "t0")) "t9" =
      JobStore.Job.create "u1" "hi" "short" none none "t0" := by decide

/-! ## `src/tasks/render_task.py` : the Celery task `render_job_task` -/

/-- Python `a or b` where `a` is an optional string and `b` a string
(`None` and `""` are falsy). -/
def pyOrS (a : Option String) (b : String) : String :=
  match a with
  | some x => if x = "" then b else x
  | none => b

/-- Python `a or b` for two optional strings (`None` and `""` falsy). -/
def pyOrOS (a b : Option String) : Option String :=
  match a with
  | some x => if x = "" then b else some x
  | none => b

/-- Python truthiness of an optional string. -/
def pyTruthyS (o : Option String) : Bool :=
  match o with
  | some x => x ≠ ""
  | none => false

/-- Characters after the last `/` of the input. -/
def lastComponent : List Char → List Char → List Char
  | [], acc => acc
  | c :: cs, acc => if c = '/' then lastComponent cs [] else lastComponent cs (acc ++ [c])

/-- `Path(p).name`: the last `/`-separated component (the paths the
task builds always end in a file name, never a slash). -/
def pathName (p : String) : String :=
  String.mk (lastComponent p.data [])

/-- Outcome of the Wav2Lip step: `run_wav2lip` returned an exit code,
or the module lacked `run_wav2lip` (`AttributeError`, CLI fallback ran
with the given return code), or it raised some other exception. -/
inductive Wav2lipOutcome where
  | rc (n : Int)
  | attrErr (cliRc : Int)
  | exn (e : String)
deriving DecidableEq, Repr

/-- External-world oracles and configuration for one run of
`render_job_task`.  `Except.error` means the call raised. -/
structure RenderEnv where
  s3Bucket : String
  baseUrl : String
  outDir : String
  s3KeyPre : String
  awsRegion : String
  baconUrl : Option String
  now : String
  traceback : String
  tts : Except String String
  wav2lip : Wav2lipOutcome
  blender : Except String String
  combine : Except String Unit
  postUpload : Except String Unit
  storageUpload : Except String Unit
  webhookPost : Except String Unit

/-- `upload_to_s3` (engines/postprocess.py lines 38-51): raises when
`S3_BUCKET` is unset, otherwise uploads (`env.postUpload` may raise)
and returns `{bucket, key, url}`. -/
def postprocessUploadToS3 (env : RenderEnv) (key : String) : Except String Dict :=
  if env.s3Bucket = "" then .error "S3_BUCKET not configured"
  else
    match env.postUpload with
    | .error e => .error e
    | .ok _ =>
      .ok [("bucket", JVal.str env.s3Bucket), ("key", JVal.str key),
           ("url", JVal.str ("https://" ++ env.s3Bucket ++ ".s3.amazonaws.com/" ++ key))]

/-- `upload_to_s3_if_configured` (services/storage.py): returns `None`
when `S3_BUCKET` is unset, otherwise uploads (`env.storageUpload` may
raise) and returns the public URL. -/
def upload_to_s3_if_configured (env : RenderEnv) (key : String) :
    Except String (Option String) :=
  if env.s3Bucket = "" then .ok none
  else
    match env.storageUpload with
    | .error e => .error e
    | .ok _ =>
      .ok (some ("https://" ++ env.s3Bucket ++ ".s3." ++ env.awsRegion ++
        ".amazonaws.com/" ++ key))

/-- The local public URL fallback (render_task.py lines 223-227 and
230-234). -/
def localVideoUrl (env : RenderEnv) (finalPath : String) : String :=
  if env.baseUrl ≠ "" then env.baseUrl ++ "/videos/" ++ pathName finalPath
  else "/videos/" ++ pathName finalPath

/-- Step 3 of `render_job_task` (lines 209-234): try
`postprocess.upload_to_s3`, then `services.storage`, then fall back to
the local public URL; when no bucket is configured go straight to the
local URL.  The surrounding `try/except` means this step never raises. -/
def uploadStep (env : RenderEnv) (finalPath : String) : Option String :=
  if env.s3Bucket ≠ "" then
    match postprocessUploadToS3 env (env.s3KeyPre ++ pathName finalPath) with
    | .ok s3info => dictGetStr s3info "url"
    | .error _ =>
      match upload_to_s3_if_configured env ("videos/" ++ pathName finalPath) with
      | .ok s3url => s3url
      | .error _ => some (localVideoUrl env finalPath)
  else some (localVideoUrl env finalPath)

/-- Lip-sync / Blender output followed by the `postprocessing` combine
step (lines 172-203): `combine_audio_video` writes
`<out>/<job_id>_final.mp4` and returns that path, so on success
`final_path` is the `_final.mp4` file; when combine raises, `combined`
is set to the (truthy, nonempty) input video path, so `final_path` is
still the `_final.mp4` file unless that path was empty. -/
def postStep (env : RenderEnv) (s : Store) (job_id usedVideo : String) :
    Store × Except String String :=
  let s2 := update_job_status s job_id "postprocessing" none env.now
  let finalOut := env.outDir ++ "/" ++ job_id ++ "_final.mp4"
  match env.combine with
  | .ok _ => (s2, .ok finalOut)
  | .error _ => (s2, .ok (if usedVideo ≠ "" then finalOut else usedVideo))

deriving instance DecidableEq for Except

/-- A `requests.post` to a webhook: target URL, JSON payload, outcome. -/
structure WebhookCall where
  url : String
  payload : Dict
  outcome : Except String Unit
deriving DecidableEq, Repr

/-- The value returned by a successful `render_job_task`. -/
structure TaskOk where
  ok : Bool
  video_url : Option String
deriving DecidableEq, Repr

/-- Result of one `render_job_task` run: the jobs directory afterwards,
the webhook posts attempted, and the Celery return value
(`Except.error` = the task raised). -/
structure TaskRun where
  store : Store
  webhooks : List WebhookCall
  ret : Except String TaskOk

/-- The webhook block shared by the success (lines 241-249) and failure
(lines 258-265) paths: re-read the job file, take
`meta.webhook_url or BACON_URL`, post if set; every exception is
swallowed and nothing is written. -/
def webhookBlock (env : RenderEnv) (s : Store) (job_id : String) (payload : Dict) :
    List WebhookCall :=
  match read_job_file s job_id with
  | none => []
  | some j =>
    match pyOrOS (dictGetStr (j.meta.getD []) "webhook_url") env.baconUrl with
    | none => []
    | some w => [{ url := w, payload := payload, outcome := env.webhookPost }]

/-- The outer `except` handler of `render_job_task` (lines 253-266):
mark the job failed with `str(exc) + "\n" + traceback`, post the
failure webhook (swallowing its errors), and re-raise. -/
def failFinish (env : RenderEnv) (s : Store) (job_id e : String) : TaskRun :=
  let s2 := set_job_failed s job_id (e ++ "\n" ++ env.traceback) env.now
  let hooks := webhookBlock env s2 job_id
    [("status", JVal.str "failed"), ("job_id", JVal.str job_id), ("error", JVal.str e)]
  { store := s2, webhooks := hooks, ret := .error e }

/-- `render_job_task` (render_task.py lines 100-266). -/
def render_job_task (env : RenderEnv) (s0 : Store) (job_id : String) : TaskRun :=
  match read_job_file s0 job_id with
  | none =>
    -- FileNotFoundError is re-raised before the try block: no status write.
    { store := s0, webhooks := [], ret := .error "FileNotFoundError" }
  | some job =>
    -- script/preset are read here; they only feed the external engines.
    let sA := update_job_status (update_job_status s0 job_id "started" none env.now)
      job_id "tts" none env.now
    -- TTS (lines 121-143): on any exception a silent placeholder file is
    -- produced (by ffmpeg or as an empty file) and used instead, so this
    -- step never raises.
    let stageRes : Store × Except String String :=
      if pyTruthyS job.face_video then
        let sB := update_job_status sA job_id "lipsync" none env.now
        let outLip := env.outDir ++ "/" ++ job_id ++ "_lipsync.mp4"
        match env.wav2lip with
        | .rc n =>
          if n ≠ 0 then (sB, .error ("Wav2Lip exited non-zero " ++ toString n))
          else postStep env sB job_id outLip
        | .attrErr m =>
          if m ≠ 0 then (sB, .error "Wav2Lip failed")
          else postStep env sB job_id outLip
        | .exn e => (sB, .error e)
      else
        let sB := update_job_status sA job_id "rendering" none env.now
        match env.blender with
        | .error e => (sB, .error e)
        | .ok blenderOut => postStep env sB job_id blenderOut
    match stageRes with
    | (sB, .error e) => failFinish env sB job_id e
    | (sB, .ok finalPath) =>
      let sC := update_job_status sB job_id "uploading" none env.now
      let videoUrl := uploadStep env finalPath
      let resultDict : Dict :=
        [("video_url", match videoUrl with | some u => JVal.str u | none => JVal.null),
         ("path", JVal.str finalPath)]
      let sD := set_job_result sC job_id resultDict env.now
      let hooks := webhookBlock env sD job_id
        [("status", JVal.str "completed"), ("job_id", JVal.str job_id),
         ("video_url", match videoUrl with | some u => JVal.str u | none => JVal.null)]
      { store := sD, webhooks := hooks, ret := .ok { ok := true, video_url := videoUrl } }

/-! ## `src/tasks.py` : the RQ worker `process_video_job` -/

namespace TasksPy

/-- Redis-side per-job state plus the observable sleeps of the loop:
`meta` is the `video:<uuid>` hash, `logs` the `video:<uuid>:logs` list
(`ltrim` retention is irrelevant to the claims and not modelled),
`sleeps` the successive `time.sleep` durations in seconds. -/
structure RState where
  meta : Dict
  logs : List String
  sleeps : List Nat
deriving DecidableEq, Repr

/-- `set_meta` (tasks.py lines 38-40): `hset` with a mapping merges the
entries into the hash. -/
def set_meta (st : RState) (mapping : Dict) : RState :=
  { st with meta := dictUpdate st.meta mapping }

/-- `append_log` (tasks.py lines 41-43). -/
def append_log (st : RState) (msg : String) : RState :=
  { st with logs := st.logs ++ [msg] }

/-- Outcome of the polling loop `poll_hf_job` as seen by its caller:
either candidate URLs were found (with the subsequent
`try_download_url` outcome and the saved filename / S3 result), or it
came back with no URLs (timeout, no identifier, or a bare success
status). -/
inductive PollOutcome where
  | urls (u : String) (dl : Except String String) (fname : String) (s3url : Option String)
  | noUrls (err : String)
deriving DecidableEq, Repr

/-- What one HF-router call attempt observes.  `binaryOk`: HTTP 200
with video/octet-stream content (with the saved filename and the
`upload_to_s3` result, which is `none` when unconfigured or when the
upload raised — tasks.py lines 54-67 swallow upload exceptions).
`jsonCandidate`: a JSON body containing an `http` URL, with the
download outcome.  `jsonJob`: a JSON body with a job id / status URL,
handled by polling.  `jsonOther`: any other response.  `exn`: the
request (or anything else in the `try` body) raised. -/
inductive HFAttempt where
  | binaryOk (fname : String) (s3url : Option String)
  | jsonCandidate (url : String) (dl : Except String String) (fname : String) (s3url : Option String)
  | jsonJob (poll : PollOutcome)
  | jsonOther (raw : String)
  | exn (e : String)
deriving DecidableEq, Repr

/-- Configuration and oracles for `process_video_job`:
`maxAttempts` is `int(os.environ.get("JOB_MAX_ATTEMPTS", "3"))`,
`attempt k` what the k-th (1-based) router call observes. -/
structure TEnv where
  maxAttempts : Nat
  publicBase : String
  startedAt : String
  attempt : Nat → HFAttempt

/-- The dict returned by `process_video_job`. -/
structure TRet where
  ok : Bool
  video_url : Option String
  error : Option String
deriving DecidableEq, Repr

/-- `PUBLIC_BASE`-relative video URL (tasks.py lines 146, 173, 187):
`s3_url if s3_url else (PUBLIC_BASE + path if PUBLIC_BASE else path)`. -/
def videoUrlOf (env : TEnv) (s3url : Option String) (fname : String) : String :=
  match s3url with
  | some u => u
  | none =>
    if env.publicBase ≠ "" then env.publicBase ++ "/static/videos/" ++ fname
    else "/static/videos/" ++ fname

/-- The completion block repeated at tasks.py lines 142-149, 169-176
and 183-190: record the file, mark the meta hash completed with the
attempt count, log, and return. -/
def completeStep (env : TEnv) (st : RState) (k : Nat) (fname : String)
    (s3url : Option String) (logMsg : String) : RState × Option TRet :=
  let videoUrl := videoUrlOf env s3url fname
  let st := set_meta st
    [("status", JVal.str "completed"), ("filename", JVal.str fname),
     ("video_url", JVal.str videoUrl), ("attempts", JVal.str (toString k))]
  let st := append_log st logMsg
  (st, some { ok := true, video_url := some videoUrl, error := none })

/-- The `except` arm of the attempt loop (tasks.py lines 196-198). -/
def exnHandler (st : RState) (k : Nat) (e : String) : RState :=
  let st := append_log st ("Attempt " ++ toString k ++ " exception: " ++ e)
  set_meta st [("status", JVal.str "error"), ("error", JVal.str e),
               ("attempts", JVal.str (toString k))]

/-- The "unexpected response" fallthrough (tasks.py lines 194-195). -/
def unexpectedHandler (st : RState) (k : Nat) (raw : String) : RState :=
  let st := append_log st ("Unexpected HF response: " ++ raw)
  set_meta st [("status", JVal.str "error"), ("error", JVal.str raw),
               ("attempts", JVal.str (toString k))]

/-- The body of one iteration of the `while attempts < max_attempts`
loop (tasks.py lines 131-198), for attempt number `k` (1-based).
`some r` = the body executed `return r`; `none` = fall through to the
`time.sleep` and the next iteration. -/
def attemptBody (env : TEnv) (st : RState) (k : Nat) : RState × Option TRet :=
  let st := append_log st ("Calling HF router attempt " ++ toString k)
  match env.attempt k with
  | .binaryOk fname s3url =>
    let st := append_log st ("Saved binary to " ++ fname)
    completeStep env st k fname s3url "Job completed successfully"
  | .jsonCandidate url dl fname s3url =>
    let st := append_log st "Router returned JSON"
    let st := append_log st ("Found candidate URL: " ++ url)
    match dl with
    | .error e => (exnHandler st k e, none)
    | .ok _ => completeStep env st k fname s3url "Job completed (downloaded candidate URL)"
  | .jsonJob poll =>
    let st := append_log st "Router returned JSON"
    let st := append_log st "Detected job_id/status_url, entering poll loop"
    match poll with
    | .urls u dl fname s3url =>
      let st := append_log st ("Poll found urls: " ++ u)
      match dl with
      | .error e => (exnHandler st k e, none)
      | .ok _ => completeStep env st k fname s3url "Job completed after polling"
    | .noUrls err =>
      let st := append_log st ("Poll did not find urls: " ++ err)
      (unexpectedHandler st k err, none)
  | .jsonOther raw =>
    let st := append_log st "Router returned JSON"
    (unexpectedHandler st k raw, none)
  | .exn e => (exnHandler st k e, none)

/-- The attempt loop: `attempts` is the counter so far, `fuel` the
remaining iterations allowed by `attempts < max_attempts`.  Returns the
final state, the total number of attempts performed, and the returned
dict.  When the loop exits without a `return`, tasks.py lines 200-203
mark the hash failed (recording the attempt count) and return
`{"ok": False, "error": "failed_after_retries"}`. -/
def jobLoop (env : TEnv) (st : RState) (attempts fuel : Nat) : RState × Nat × TRet :=
  match fuel with
  | 0 =>
    let st := set_meta st
      [("status", JVal.str "failed"), ("attempts", JVal.str (toString attempts))]
    let st := append_log st "Job failed after retries"
    (st, attempts, { ok := false, video_url := none, error := some "failed_after_retries" })
  | fuel + 1 =>
    let k := attempts + 1
    match attemptBody env st k with
    | (st, some r) => (st, k, r)
    | (st, none) =>
      -- time.sleep(3 + attempts), with attempts already incremented to k
      let st := { st with sleeps := st.sleeps ++ [3 + k] }
      jobLoop env st k fuel

/-- `process_video_job` (tasks.py lines 123-203). -/
def process_video_job (env : TEnv) : RState × Nat × TRet :=
  let st : RState := { meta := [], logs := [], sleeps := [] }
  let st := append_log st "Worker started"
  let st := set_meta st [("status", JVal.str "running"), ("started_at", JVal.str env.startedAt)]
  jobLoop env st 0 env.maxAttempts

end TasksPy

/-! ## Claims C1, C4, C10 : job-file mutators -/

/-- A jobs directory holding a single job `j1` in the terminal status
`completed`. -/
def c1Store : Store :=
  fun k => if k = "j1" then some { id := "j1", status := some "completed" } else none

/-- Claim C1, counterexample: `update_job_status` applied to a job whose
current status is the terminal `"completed"` moves it to `"started"` —
the terminal state transitions out, no Conflict is produced, and the
write is performed. -/
theorem claim_C1_counterexample :
    recStatus (c1Store "j1") = some "completed" ∧
    recStatus ((update_job_status c1Store "j1" "started" none "t1") "j1") =
      some "started" := by
  decide

/-- Claim C1 (corrected): the job mutators perform no status-transition
check at all.  `update_job_status` overwrites `status` with the
requested value whatever the current status (terminal or not), and
`set_job_result` / `set_job_failed` likewise force `completed` /
`failed` unconditionally; no Conflict result exists. -/
theorem claim_C1_amended (s : Store) (job_id st now e : String) (extra : Option Dict)
    (res : Dict) :
    recStatus ((update_job_status s job_id st extra now) job_id) = some st ∧
    recStatus ((set_job_result s job_id res now) job_id) = some "completed" ∧
    recStatus ((set_job_failed s job_id e now) job_id) = some "failed" := by
  refine ⟨?_, ?_, ?_⟩ <;>
    cases hs : s job_id <;>
      simp [update_job_status, set_job_result, set_job_failed, read_job_file,
        write_job_file, recStatus, hs]

/-- A run of `set_job_result` followed by `set_job_failed` on the same
job, as the worker does when a job completes and is later failed. -/
def c4Store : Store :=
  set_job_failed
    (set_job_result (fun _ => none) "j1" [("video_url", JVal.str "http://x/v.mp4")] "t1")
    "j1" "boom" "t2"

/-- Claim C4, counterexample: after `set_job_result` then
`set_job_failed`, the record has `status = "failed"` with `error` set
but its `result` still present — `set_job_failed` does not leave "no
result set", so `result` is set without `status == completed`. -/
theorem claim_C4_counterexample :
    recStatus (c4Store "j1") = some "failed" ∧
    recError (c4Store "j1") = some "boom" ∧
    recResult (c4Store "j1") = some [("video_url", JVal.str "http://x/v.mp4")] := by
  decide

/-- Claim C4 (corrected): a freshly created job has `result = {}` and
`error = None`, `set_job_result` sets `result` and forces
`status = "completed"`, and `set_job_failed` sets `error` and forces
`status = "failed"` — but neither mutator clears the other field
(`set_job_result` keeps any existing `error`, `set_job_failed` keeps
any existing `result`), so the if-and-only-if correspondence holds only
for records never touched by the opposite mutator. -/
theorem claim_C4_amended (s : Store) (job_id now e jid script preset : String)
    (res : Dict) (avatar : Option String) (rs : Option Dict) :
    recResult ((set_job_result s job_id res now) job_id) = some res ∧
    recStatus ((set_job_result s job_id res now) job_id) = some "completed" ∧
    recError ((set_job_result s job_id res now) job_id) = recError (s job_id) ∧
    recError ((set_job_failed s job_id e now) job_id) = some e ∧
    recStatus ((set_job_failed s job_id e now) job_id) = some "failed" ∧
    recResult ((set_job_failed s job_id e now) job_id) = recResult (s job_id) ∧
    (JobStore.Job.create jid script preset avatar rs now).result = [] ∧
    (JobStore.Job.create jid script preset avatar rs now).error = none := by
  refine ⟨?_, ?_, ?_, ?_, ?_, ?_, ?_, ?_⟩ <;>
    first
      | (cases hs : s job_id <;>
          simp [set_job_result, set_job_failed, read_job_file, write_job_file,
            recStatus, recResult, recError, hs])
      | simp [JobStore.Job.create, JobStore.Job.init, JobStore.pyOrD]

/-- Claim C10: `update_job_status` on an existing, parsed record changes
only `status` and `meta` (adding `last_update_at` and merging `extra`);
every other stored field is carried over unchanged. -/
theorem claim_C10 (s : Store) (job_id st now : String) (extra : Option Dict)
    (r : StoredJob) (h : s job_id = some r) :
    ∃ j, (update_job_status s job_id st extra now) job_id = some j ∧
      j.id = r.id ∧ j.script = r.script ∧ j.script_text = r.script_text ∧
      j.preset = r.preset ∧ j.avatar = r.avatar ∧ j.face_video = r.face_video ∧
      j.result = r.result ∧ j.error = r.error ∧ j.created_at = r.created_at ∧
      j.completed_at = r.completed_at ∧ j.render_settings = r.render_settings ∧
      j.status = some st ∧
      j.meta = some (dictUpdate
        (dictSet (r.meta.getD []) "last_update_at" (JVal.str now)) (extra.getD [])) := by
  refine ⟨{ r with
      status := some st
      meta := some (dictUpdate (dictSet (r.meta.getD []) "last_update_at" (JVal.str now))
        (extra.getD [])) }, ?_, rfl, rfl, rfl, rfl, rfl, rfl, rfl, rfl, rfl, rfl, rfl, rfl, rfl⟩
  cases extra <;>
    simp [update_job_status, read_job_file, write_job_file, h, dictUpdate]

/-- A jobs directory for the C10 witness. -/
def c10Store : Store :=
  fun k =>
    if k = "j1" then
      some { id := "j1", script_text := some "hello", status := some "created",
             meta := some [("webhook_url", JVal.str "http://cb")] }
    else none

/-- Claim C10, witness: the frame theorem evaluated at a concrete
record. -/
theorem claim_C10_witness :
    ∃ j, (update_job_status c10Store "j1" "tts" none "t1") "j1" = some j ∧
      j.id = "j1" ∧ j.script = none ∧ j.script_text = some "hello" ∧
      j.preset = none ∧ j.avatar = none ∧ j.face_video = none ∧
      j.result = none ∧ j.error = none ∧ j.created_at = none ∧
      j.completed_at = none ∧ j.render_settings = none ∧
      j.status = some "tts" ∧
      j.meta = some [("webhook_url", JVal.str "http://cb"),
                     ("last_update_at", JVal.str "t1")] := by
  have h := claim_C10 c10Store "j1" "tts" "t1" none
    { id := "j1", script_text := some "hello", status := some "created",
      meta := some [("webhook_url", JVal.str "http://cb")] } (by decide)
  simpa [dictUpdate, dictSet] using h

/-! ## Claim C9 : job store round-trip -/

theorem pyOrStr_ne_empty (o : Option String) (dflt : String) (h : dflt ≠ "") :
    JobStore.pyOrStr o dflt ≠ "" := by
  unfold JobStore.pyOrStr
  cases o with
  | none => exact h
  | some x =>
    by_cases hx : x = ""
    · simp only [hx, if_pos rfl]
      exact h
    · simp only [if_neg hx]
      exact hx

theorem pyOrStr_some_of_ne (s dflt : String) (h : s ≠ "") :
    JobStore.pyOrStr (some s) dflt = s := by
  simp [JobStore.pyOrStr, h]

/-- Claim C9: writing any constructed `Job` with `Job.save` and reading
it back with `Job.get` reproduces every field, as long as the
construction-time timestamp is nonempty (`datetime.utcnow().isoformat()`
never is; an empty `created_at` would be swallowed by the `or` default
on re-parse). -/
theorem claim_C9 (id script_text preset : String) (avatar : Option String)
    (status : String) (meta result : Option Dict)
    (created_at completed_at : Option String) (error : Option String)
    (render_settings : Option Dict) (now now2 : String) (h : now ≠ "") :
    JobStore.Job.get
      (JobStore.Job.save
        (JobStore.Job.init id script_text preset avatar status meta result
          created_at completed_at error render_settings now)) now2 =
    JobStore.Job.init id script_text preset avatar status meta result
      created_at completed_at error render_settings now := by
  unfold JobStore.Job.get JobStore.Job.save JobStore.Job.to_dict JobStore.Job.init
  simp [JobStore.pyOrD_some]
  exact pyOrStr_some_of_ne _ _ (pyOrStr_ne_empty created_at now h)

/-- Claim C9, witness: round-trip of the job
`Job.create`-style construction with a concrete timestamp. -/
theorem claim_C9_witness :
    JobStore.Job.get
      (JobStore.Job.save
        (JobStore.Job.init "u1" "hello" "short" none "created" none none
          none none none (some []) "2025-01-01T00:00:00")) "2025-06-01T00:00:00" =
    JobStore.Job.init "u1" "hello" "short" none "created" none none
      none none none (some []) "2025-01-01T00:00:00" :=
  claim_C9 "u1" "hello" "short" none "created" none none none none none
    (some []) "2025-01-01T00:00:00" "2025-06-01T00:00:00" (by decide)

/-! ## Claim C2 : idempotent enqueue -/

/-- An ORM store holding job `j1` with status already `"queued"`. -/
def c2Store : OrmStore :=
  fun k => if k = "j1" then some { id := "j1", status := "queued", meta := none } else none

/-- Claim C2, counterexample: `start_render` on a job whose status is
already `"queued"` does not short-circuit — it proceeds and the queue
backend receives the job id again (and `enqueue_render_job` itself
performs no status check at all). -/
theorem claim_C2_counterexample :
    (c2Store "j1").map OrmJob.status = some "queued" ∧
    startRenderQueue (start_render c2Store [] "j1" "t0" "ip0") = some ["j1"] := by
  decide

/-- Claim C2 (corrected): `enqueue_render_job` unconditionally sends the
job id to the queue backend; the only status guard is in the HTTP route
`start_render`, which fails with a 409 Conflict when the status is one
of `started, parsing, rendering, completed` and otherwise (including
for jobs already `"queued"`, and for `"created"`/`"failed"` jobs) sets
the status to `"queued"` and enqueues. -/
theorem claim_C2_amended (s : OrmStore) (q : List String) (job_id now ip : String)
    (job : OrmJob) (h : s job_id = some job) :
    enqueue_render_job q job_id = q ++ [job_id] ∧
    (job.status ∈ ["started", "parsing", "rendering", "completed"] →
      start_render s q job_id now ip = .error (.conflict ("Job already " ++ job.status))) ∧
    (job.status ∉ ["started", "parsing", "rendering", "completed"] →
      startRenderQueue (start_render s q job_id now ip) = some (q ++ [job.id]) ∧
      startRenderStatus (start_render s q job_id now ip) job_id = some "queued") := by
  refine ⟨rfl, ?_, ?_⟩ <;> intro hmem <;>
    simp [start_render, startRenderQueue, startRenderStatus, enqueue_render_job, h, hmem]

/-- An ORM store holding job `j1` with status `"created"`. -/
def c2wStore : OrmStore :=
  fun k => if k = "j1" then some { id := "j1", status := "created", meta := none } else none

/-- Claim C2, witness: the corrected statement evaluated on a job in
status `"created"`, which is enqueued and moved to `"queued"`. -/
theorem claim_C2_witness :
    enqueue_render_job [] "j1" = [] ++ ["j1"] ∧
    startRenderQueue (start_render c2wStore [] "j1" "t0" "ip0") = some ([] ++ ["j1"]) ∧
    startRenderStatus (start_render c2wStore [] "j1" "t0" "ip0") "j1" = some "queued" := by
  have h := claim_C2_amended c2wStore [] "j1" "t0" "ip0"
    { id := "j1", status := "created", meta := none } (by decide)
  exact ⟨h.1, (h.2.2 (by decide)).1, (h.2.2 (by decide)).2⟩

/-! ## Claims C3, C6 : the retry loop of `process_video_job` -/

theorem jobLoop_zero (env : TasksPy.TEnv) (st : TasksPy.RState) (a : Nat) :
    TasksPy.jobLoop env st a 0 =
      ({ meta := dictSet (dictSet st.meta "status" (JVal.str "failed"))
             "attempts" (JVal.str (toString a)),
         logs := st.logs ++ ["Job failed after retries"],
         sleeps := st.sleeps },
       a,
       { ok := false, video_url := none, error := some "failed_after_retries" }) :=
  rfl

theorem jobLoop_succ_exn (env : TasksPy.TEnv) (st : TasksPy.RState) (a fuel : Nat)
    (e1 : String) (hb : env.attempt (a + 1) = .exn e1) :
    TasksPy.jobLoop env st a (fuel + 1) =
      TasksPy.jobLoop env
        { meta := dictSet (dictSet (dictSet st.meta "status" (JVal.str "error"))
              "error" (JVal.str e1)) "attempts" (JVal.str (toString (a + 1))),
          logs := st.logs ++ ["Calling HF router attempt " ++ toString (a + 1),
            "Attempt " ++ toString (a + 1) ++ " exception: " ++ e1],
          sleeps := st.sleeps ++ [3 + (a + 1)] }
        (a + 1) fuel := by
  simp only [TasksPy.jobLoop, TasksPy.attemptBody, hb, TasksPy.exnHandler,
    TasksPy.set_meta, TasksPy.append_log, dictUpdate, List.foldl]
  congr 1
  simp [List.append_assoc]

theorem jobLoop_allFail (env : TasksPy.TEnv) (e : Nat → String)
    (hfail : ∀ k, env.attempt k = .exn (e k)) :
    ∀ (fuel attempts : Nat) (st : TasksPy.RState),
      (TasksPy.jobLoop env st attempts fuel).2.1 = attempts + fuel ∧
      dictGet? (TasksPy.jobLoop env st attempts fuel).1.meta "status"
        = some (JVal.str "failed") ∧
      dictGet? (TasksPy.jobLoop env st attempts fuel).1.meta "attempts"
        = some (JVal.str (toString (attempts + fuel))) ∧
      (TasksPy.jobLoop env st attempts fuel).2.2
        = { ok := false, video_url := none, error := some "failed_after_retries" } ∧
      (TasksPy.jobLoop env st attempts fuel).1.sleeps
        = st.sleeps ++ (List.range fuel).map (fun i => 3 + (attempts + 1 + i)) := by
  intro fuel
  induction fuel with
  | zero =>
    intro attempts st
    rw [jobLoop_zero]
    refine ⟨rfl, ?_, ?_, rfl, by simp⟩
    · rw [dictGet?_dictSet_ne _ _ _ _ (by decide), dictGet?_dictSet_self]
    · simp [dictGet?_dictSet_self]
  | succ fuel ih =>
    intro attempts st
    rw [jobLoop_succ_exn env st attempts fuel (e (attempts + 1)) (hfail (attempts + 1))]
    obtain ⟨h1, h2, h3, h4, h5⟩ := ih (attempts + 1) _
    refine ⟨?_, h2, ?_, h4, ?_⟩
    · rw [show attempts + (fuel + 1) = (attempts + 1) + fuel by omega]
      exact h1
    · rw [show attempts + (fuel + 1) = (attempts + 1) + fuel by omega]
      exact h3
    · rw [h5]
      simp only [List.append_assoc]
      congr 1
      rw [List.range_succ_eq_map]
      simp only [List.map_cons, List.map_map, List.singleton_append]
      refine List.cons_eq_cons.mpr ⟨by omega, ?_⟩
      apply List.map_congr_left
      intro i _
      simp only [Function.comp_apply]
      omega

/-- Claim C3: with retry ceiling `JOB_MAX_ATTEMPTS = N` and a stage
call that fails transiently (raises) on every invocation,
`process_video_job` performs exactly `N` attempts, then marks the job
hash `status = "failed"` recording `attempts = N`, and returns
`{"ok": False, "error": "failed_after_retries"}` instead of raising. -/
theorem claim_C3 (env : TasksPy.TEnv) (e : Nat → String)
    (hfail : ∀ k, env.attempt k = .exn (e k)) :
    (TasksPy.process_video_job env).2.1 = env.maxAttempts ∧
    dictGet? (TasksPy.process_video_job env).1.meta "status"
      = some (JVal.str "failed") ∧
    dictGet? (TasksPy.process_video_job env).1.meta "attempts"
      = some (JVal.str (toString env.maxAttempts)) ∧
    (TasksPy.process_video_job env).2.2
      = { ok := false, video_url := none, error := some "failed_after_retries" } := by
  obtain ⟨h1, h2, h3, h4, _⟩ := jobLoop_allFail env e hfail env.maxAttempts 0
    (TasksPy.set_meta
      (TasksPy.append_log { meta := [], logs := [], sleeps := [] } "Worker started")
      [("status", JVal.str "running"), ("started_at", JVal.str env.startedAt)])
  simp only [Nat.zero_add] at h1 h3
  exact ⟨h1, h2, h3, h4⟩

/-- A worker environment with retry ceiling 3 whose router call raises
a connection error on every attempt. -/
def c3Env : TasksPy.TEnv :=
  { maxAttempts := 3, publicBase := "", startedAt := "t0",
    attempt := fun _ => .exn "ConnectionError" }

/-- Claim C3, witness: with ceiling 3 and an always-raising call,
exactly 3 attempts happen and the job is marked failed. -/
theorem claim_C3_witness :
    (TasksPy.process_video_job c3Env).2.1 = c3Env.maxAttempts ∧
    dictGet? (TasksPy.process_video_job c3Env).1.meta "status"
      = some (JVal.str "failed") ∧
    dictGet? (TasksPy.process_video_job c3Env).1.meta "attempts"
      = some (JVal.str (toString c3Env.maxAttempts)) ∧
    (TasksPy.process_video_job c3Env).2.2
      = { ok := false, video_url := none, error := some "failed_after_retries" } :=
  claim_C3 c3Env (fun _ => "ConnectionError") (fun _ => rfl)

/-- A worker environment for the C6 counterexample: ceiling 3,
always-raising router call. -/
def c6Env : TasksPy.TEnv :=
  { maxAttempts := 3, publicBase := "", startedAt := "t0",
    attempt := fun _ => .exn "timeout" }

/-- Claim C6, counterexample: on an always-transiently-failing call the
loop sleeps 4, 5, 6 seconds after attempts 1, 2, 3 — and no choice of
backoff base and cap makes those three delays equal to
`min(cap, base * 2^k)` for `k = 1, 2, 3`, so the inter-attempt delay is
not a capped exponential backoff for any per-stage configuration. -/
theorem claim_C6_counterexample :
    (TasksPy.process_video_job c6Env).1.sleeps = [4, 5, 6] ∧
    ¬ ∃ base cap : ℚ,
        ((4 : ℚ) = min cap (base * 2 ^ 1) ∧ (5 : ℚ) = min cap (base * 2 ^ 2) ∧
         (6 : ℚ) = min cap (base * 2 ^ 3)) := by
  constructor
  · decide
  · rintro ⟨b, c, h1, h2, h3⟩
    have hb : (4 : ℚ) ≤ b * 2 ^ 1 := h1 ▸ min_le_right c (b * 2 ^ 1)
    have hb4 : (8 : ℚ) ≤ b * 2 ^ 2 := by
      have : (2 : ℚ) ≤ b := by nlinarith [hb]
      nlinarith [this]
    have hc : c = 5 := by
      rcases min_eq_iff.mp h2.symm with ⟨hc5, _⟩ | ⟨hb5, _⟩
      · exact hc5
      · nlinarith [hb4, hb5]
    have : (6 : ℚ) ≤ c := h3 ▸ min_le_left c (b * 2 ^ 3)
    rw [hc] at this
    norm_num at this

/-- Claim C6 (corrected): on every transient failure the loop sleeps a
fixed `3 + attempt` seconds (`time.sleep(3 + attempts)` with the 1-based
attempt counter) — linear growth with no configurable base, no cap, no
exponential term and no jitter. -/
theorem claim_C6_amended (env : TasksPy.TEnv) (e : Nat → String)
    (hfail : ∀ k, env.attempt k = .exn (e k)) :
    (TasksPy.process_video_job env).1.sleeps
      = (List.range env.maxAttempts).map (fun i => 3 + (i + 1)) := by
  obtain ⟨_, _, _, _, h5⟩ := jobLoop_allFail env e hfail env.maxAttempts 0
    (TasksPy.set_meta
      (TasksPy.append_log { meta := [], logs := [], sleeps := [] } "Worker started")
      [("status", JVal.str "running"), ("started_at", JVal.str env.startedAt)])
  rw [TasksPy.process_video_job]
  rw [h5]
  simp only [TasksPy.set_meta, TasksPy.append_log, List.nil_append]
  apply List.map_congr_left
  intro i _
  omega

/-- A worker environment for the C6 witness. -/
def c6wEnv : TasksPy.TEnv :=
  { maxAttempts := 2, publicBase := "", startedAt := "t0",
    attempt := fun _ => .exn "HTTP 503" }

/-- Claim C6, witness: the linear-backoff statement evaluated at
ceiling 2. -/
theorem claim_C6_witness :
    (TasksPy.process_video_job c6wEnv).1.sleeps
      = (List.range c6wEnv.maxAttempts).map (fun i => 3 + (i + 1)) :=
  claim_C6_amended c6wEnv (fun _ => "HTTP 503") (fun _ => rfl)

/-! ## Claims C5, C7, C8 : the Celery task `render_job_task` -/

/-- An environment whose Blender stage raises; everything else is
benign. -/
def c5Env : RenderEnv :=
  { s3Bucket := "", baseUrl := "", outDir := "public/videos", s3KeyPre := "videos/",
    awsRegion := "us-east-1", baconUrl := none, now := "t1", traceback := "tb",
    tts := .ok "public/videos/j1_tts.mp3", wav2lip := .rc 0, blender := .error "boom",
    combine := .ok (), postUpload := .ok (), storageUpload := .ok (),
    webhookPost := .ok () }

/-- A jobs directory with a face-less job `j1`. -/
def c5Store : Store :=
  fun k => if k = "j1" then some { id := "j1", script_text := some "hi" } else none

/-- Claim C5, counterexample: when the Blender stage raises, the task
does mark the job failed with the captured error, but then re-raises:
the exception propagates out of `render_job_task` (to the Celery
worker) instead of being contained. -/
theorem claim_C5_counterexample :
    recStatus ((render_job_task c5Env c5Store "j1").store "j1") = some "failed" ∧
    (render_job_task c5Env c5Store "j1").ret = .error "boom" := by
  constructor
  · decide
  · decide

/-- Claim C5 (corrected): on an unhandled stage error the task marks
the job `failed` with a captured error object (`str(exc)` plus the
formatted traceback) and fires the failure webhook — but it then
re-raises, so the exception does propagate out of the task to the
Celery worker rather than being swallowed; and a missing job file is
re-raised without marking anything. -/
theorem claim_C5_amended (env : RenderEnv) (s : Store) (job_id e1 : String)
    (job : StoredJob) (hjob : s job_id = some job)
    (hface : pyTruthyS job.face_video = false) (hbl : env.blender = .error e1) :
    recStatus ((render_job_task env s job_id).store job_id) = some "failed" ∧
    recError ((render_job_task env s job_id).store job_id)
      = some (e1 ++ "\n" ++ env.traceback) ∧
    (render_job_task env s job_id).ret = .error e1 := by
  refine ⟨?_, ?_, ?_⟩ <;>
    simp [render_job_task, read_job_file, hjob, hface, hbl, failFinish,
      set_job_failed, update_job_status, write_job_file, recStatus, recError]

/-- Claim C5, witness: the corrected statement at the concrete failing
environment. -/
theorem claim_C5_witness :
    recStatus ((render_job_task c5Env c5Store "j1").store "j1") = some "failed" ∧
    recError ((render_job_task c5Env c5Store "j1").store "j1")
      = some ("boom" ++ "\n" ++ c5Env.traceback) ∧
    (render_job_task c5Env c5Store "j1").ret = .error "boom" :=
  claim_C5_amended c5Env c5Store "j1" "boom"
    { id := "j1", script_text := some "hi" } (by decide) (by decide) (by decide)

theorem uploadStep_isSome (env : RenderEnv) (fp : String) :
    ∃ u, uploadStep env fp = some u := by
  by_cases hb : env.s3Bucket = ""
  · exact ⟨localVideoUrl env fp, by simp [uploadStep, hb]⟩
  · cases hp : env.postUpload <;> cases hst : env.storageUpload <;>
      simp [uploadStep, postprocessUploadToS3, upload_to_s3_if_configured,
        hb, hp, hst, dictGetStr, dictGet?]

theorem uploadStep_fallback (env : RenderEnv) (fp e1 e2 : String)
    (hp : env.postUpload = .error e1) (hst : env.storageUpload = .error e2) :
    uploadStep env fp = some (localVideoUrl env fp) := by
  by_cases hb : env.s3Bucket = "" <;>
    simp [uploadStep, postprocessUploadToS3, upload_to_s3_if_configured, hb, hp, hst]

/-- Claim C7: the upload step always yields a locator and never fails
the job.  Whatever the upload oracles do, `uploadStep` returns `some`
URL; for a face-less job whose Blender stage succeeds the task finishes
with `status = "completed"` and that URL in its return value (for every
outcome of the two S3 clients), and when both S3 clients raise the URL
is the locally-resolvable `/videos/...` fallback. -/
theorem claim_C7 (env : RenderEnv) (s : Store) (job_id : String) (job : StoredJob)
    (path : String) (hjob : s job_id = some job)
    (hface : pyTruthyS job.face_video = false) (hbl : env.blender = .ok path) :
    (∀ fp, ∃ u, uploadStep env fp = some u) ∧
    (∃ fp u, uploadStep env fp = some u ∧
      (render_job_task env s job_id).ret = .ok { ok := true, video_url := some u } ∧
      recStatus ((render_job_task env s job_id).store job_id) = some "completed" ∧
      (∀ e1 e2, env.postUpload = .error e1 → env.storageUpload = .error e2 →
        u = localVideoUrl env fp)) := by
  refine ⟨uploadStep_isSome env, ?_⟩
  cases hc : env.combine with
  | ok _ =>
    obtain ⟨u, hu⟩ := uploadStep_isSome env (env.outDir ++ "/" ++ job_id ++ "_final.mp4")
    refine ⟨env.outDir ++ "/" ++ job_id ++ "_final.mp4", u, hu, ?_, ?_, ?_⟩
    · simp [render_job_task, read_job_file, hjob, hface, hbl, postStep, hc, hu]
    · simp [render_job_task, read_job_file, hjob, hface, hbl, postStep, hc,
        set_job_result, update_job_status, write_job_file, recStatus]
    · intro e1 e2 hp hst
      have h2 := uploadStep_fallback env (env.outDir ++ "/" ++ job_id ++ "_final.mp4")
        e1 e2 hp hst
      rw [hu] at h2
      exact Option.some.inj h2
  | error ec =>
    obtain ⟨u, hu⟩ := uploadStep_isSome env
      (if path = "" then path else env.outDir ++ "/" ++ job_id ++ "_final.mp4")
    refine ⟨if path = "" then path else env.outDir ++ "/" ++ job_id ++ "_final.mp4",
      u, hu, ?_, ?_, ?_⟩
    · simp [render_job_task, read_job_file, hjob, hface, hbl, postStep, hc, hu]
    · simp [render_job_task, read_job_file, hjob, hface, hbl, postStep, hc,
        set_job_result, update_job_status, write_job_file, recStatus]
    · intro e1 e2 hp hst
      have h2 := uploadStep_fallback env
        (if path = "" then path else env.outDir ++ "/" ++ job_id ++ "_final.mp4")
        e1 e2 hp hst
      rw [hu] at h2
      exact Option.some.inj h2

/-- An environment for the C7 witness: S3 configured but both S3
clients raising, Blender succeeding. -/
def c7Env : RenderEnv :=
  { s3Bucket := "vids", baseUrl := "http://api", outDir := "public/videos",
    s3KeyPre := "videos/", awsRegion := "us-east-1", baconUrl := none, now := "t1",
    traceback := "tb", tts := .ok "public/videos/j1_tts.mp3", wav2lip := .rc 0,
    blender := .ok "public/videos/j1_blender.mp4", combine := .ok (),
    postUpload := .error "connection refused", storageUpload := .error "connection refused",
    webhookPost := .ok () }

/-- A jobs directory for the C7 witness. -/
def c7Store : Store :=
  fun k => if k = "j1" then some { id := "j1", script_text := some "hi" } else none

/-- Claim C7, witness: with S3 configured but unreachable, the job
still completes and the returned locator is the local fallback URL. -/
theorem claim_C7_witness :
    ((∀ fp, ∃ u, uploadStep c7Env fp = some u) ∧
      (∃ fp u, uploadStep c7Env fp = some u ∧
        (render_job_task c7Env c7Store "j1").ret = .ok { ok := true, video_url := some u } ∧
        recStatus ((render_job_task c7Env c7Store "j1").store "j1") = some "completed" ∧
        (∀ e1 e2, c7Env.postUpload = .error e1 → c7Env.storageUpload = .error e2 →
          u = localVideoUrl c7Env fp))) ∧
    (render_job_task c7Env c7Store "j1").ret =
      .ok { ok := true, video_url := some "http://api/videos/j1_final.mp4" } := by
  constructor
  · exact claim_C7 c7Env c7Store "j1" { id := "j1", script_text := some "hi" }
      "public/videos/j1_blender.mp4" (by decide) (by decide) (by decide)
  · decide

/-- Claim C8: webhook delivery never touches the job record or the
task outcome.  The final jobs directory and the task return value of
`render_job_task` are the same whatever the webhook post does
(succeeds or raises): the notification blocks swallow every exception
and perform no write, on both the completed and the failed path. -/
theorem claim_C8 (env : RenderEnv) (s : Store) (job_id : String)
    (o : Except String Unit) :
    (render_job_task { env with webhookPost := o } s job_id).store =
      (render_job_task env s job_id).store ∧
    (render_job_task { env with webhookPost := o } s job_id).ret =
      (render_job_task env s job_id).ret := by
  obtain ⟨sb, bu, od, kp, ar, bc, nw, tb, tt, w2l, bl, cmb, pu, su, wp⟩ := env
  cases hs : s job_id with
  | none => simp [render_job_task, read_job_file, hs]
  | some job =>
    cases hface : pyTruthyS job.face_video with
    | false =>
      cases bl <;> cases cmb <;> by_cases hsb : sb = "" <;> cases pu <;> cases su <;>
        simp [render_job_task, read_job_file, hs, hface, failFinish, postStep,
          uploadStep, postprocessUploadToS3, upload_to_s3_if_configured, localVideoUrl,
          dictGetStr, dictGet?, pathName, hsb]
    | true =>
      cases w2l with
      | rc n =>
        by_cases hn : n = 0 <;> cases cmb <;> by_cases hsb : sb = "" <;>
          cases pu <;> cases su <;>
            simp [render_job_task, read_job_file, hs, hface, hn, failFinish, postStep,
              uploadStep, postprocessUploadToS3, upload_to_s3_if_configured, localVideoUrl,
              dictGetStr, dictGet?, pathName, hsb]
      | attrErr m =>
        by_cases hm : m = 0 <;> cases cmb <;> by_cases hsb : sb = "" <;>
          cases pu <;> cases su <;>
            simp [render_job_task, read_job_file, hs, hface, hm, failFinish, postStep,
              uploadStep, postprocessUploadToS3, upload_to_s3_if_configured, localVideoUrl,
              dictGetStr, dictGet?, pathName, hsb]
      | exn e1 =>
        simp [render_job_task, read_job_file, hs, hface, failFinish]
